import Mathlib

/-!
Formal model of `src/Voice.js`: a single polyphonic-synthesizer voice built on
Web Audio primitives.  Times, frequencies and gains are rationals; the Web
Audio `AudioParam` automation timeline is embedded as a list of scheduled
events together with a computed-value function; the audio graph is a list of
directed connections between named nodes; JS exceptions are modelled by an
`Option String` component (`some msg` = a TypeError was thrown, and the state
component records whatever mutations happened before the throw).
-/

/-- Oscillator waveform kinds used by the voice (`OscillatorNode.type`).
The Web Audio default is `sine`. -/
inductive Waveform
  | sine
  | sawtooth
  | triangle
deriving DecidableEq, Fintype

/-- Biquad filter kinds (the voice only uses `lowpass`). -/
inductive FilterType
  | lowpass
deriving DecidableEq, Fintype

/-- A scheduled automation event on an `AudioParam`:
`setValue v t` is `setValueAtTime(v, t)` and `linearRamp v t` is
`linearRampToValueAtTime(v, t)`. -/
inductive AutomationEvent
  | setValue (v : ℚ) (t : ℚ)
  | linearRamp (v : ℚ) (t : ℚ)
deriving DecidableEq

/-- The scheduled time of an automation event. -/
def AutomationEvent.time : AutomationEvent → ℚ
  | .setValue _ t => t
  | .linearRamp _ t => t

/-- `AudioParam.cancelScheduledValues t`: remove every event scheduled at or
after time `t`, keeping the strictly earlier ones. -/
def cancelScheduledValues (evs : List AutomationEvent) (t : ℚ) : List AutomationEvent :=
  evs.filter (fun e => decide (e.time < t))

/-- Computed value of an `AudioParam` timeline at time `t`.  `pv`/`pt` are the
value and time of the previous anchor event.  A `setValue` event holds its
value from its time on; a `linearRamp` event interpolates linearly from the
previous anchor to its own target. -/
def valAux (pv pt : ℚ) : List AutomationEvent → ℚ → ℚ
  | [], _ => pv
  | AutomationEvent.setValue v t0 :: rest, t =>
      if t < t0 then pv else valAux v t0 rest t
  | AutomationEvent.linearRamp v t1 :: rest, t =>
      if t ≤ pt then pv
      else if t < t1 then pv + (v - pv) * (t - pt) / (t1 - pt)
      else valAux v t1 rest t

/-- Value of an `AudioParam` with base value `base` and event list `evs` at
time `t` (the `.value` getter). -/
def paramValue (base : ℚ) (evs : List AutomationEvent) (t : ℚ) : ℚ :=
  valAux base 0 evs t

/-- State of an `OscillatorNode`: waveform, the `frequency` `AudioParam`
(base `.value`, Web Audio default 440, plus scheduled events), and the
scheduled start/stop times. -/
structure OscillatorNode where
  type : Waveform := Waveform.sine
  freqValue : ℚ := 440
  freqEvents : List AutomationEvent := []
  startTime : Option ℚ := none
  stopTime : Option ℚ := none
deriving DecidableEq

/-- Effective oscillator frequency at time `t`. -/
def OscillatorNode.freqAt (o : OscillatorNode) (t : ℚ) : ℚ :=
  paramValue o.freqValue o.freqEvents t

/-- State of a `GainNode`: the `gain` `AudioParam` (base `.value` as passed to
the constructor, plus scheduled events). -/
structure GainNode where
  gainValue : ℚ
  gainEvents : List AutomationEvent := []
deriving DecidableEq

/-- State of a `BiquadFilterNode`: the WebIDL `BiquadFilterOptions` members
`type`, `frequency` and `Q` (capital, default 1).  Dictionary conversion
reads option keys case-sensitively and silently drops unknown members, so a
lowercase `q` key in the options object has no effect on `Q`. -/
structure BiquadFilterNode where
  type : FilterType
  frequency : ℚ
  Q : ℚ := 1
deriving DecidableEq

/-- Names for the audio nodes a voice owns, plus the external output sink. -/
inductive NodeRef
  | osc
  | osc2
  | osc3
  | osc2scale
  | osc3scale
  | ringModGain
  | ringModModulator
  | ampEnv
  | lpFilter
  | output
deriving DecidableEq, Fintype

/-- A connection destination: either a node signal input (`connect(node)`) or
the `gain` `AudioParam` of a gain node (`connect(node.gain)`). -/
inductive Dest
  | node (n : NodeRef)
  | gainParam (n : NodeRef)
deriving DecidableEq, Fintype

/-- One directed connection in the audio graph. -/
structure Conn where
  src : NodeRef
  dst : Dest
deriving DecidableEq

/-- `node.disconnect()`: remove every outgoing connection of `n`. -/
def disconnectNode (conns : List Conn) (n : NodeRef) : List Conn :=
  conns.filter (fun cn => decide (cn.src ≠ n))

/-- Number of incoming signal connections of the sink node `out`. -/
def sinkInCount (conns : List Conn) (out : NodeRef) : Nat :=
  (conns.filter (fun cn => decide (cn.dst = Dest.node out))).length

/-- The `Voice` object: parameters stored by the constructor, the fixed ADSR
constants, and the (initially absent, post-dispose nulled) node fields. -/
structure Voice where
  frequency : ℚ
  maxAmp : ℚ
  output : NodeRef
  attack : ℚ
  decay : ℚ
  sustain : ℚ
  release : ℚ
  osc : Option OscillatorNode := none
  osc2 : Option OscillatorNode := none
  osc3 : Option OscillatorNode := none
  osc2scale : Option GainNode := none
  osc3scale : Option GainNode := none
  ringModGain : Option GainNode := none
  ringModModulator : Option OscillatorNode := none
  ampEnv : Option GainNode := none
  lpFilter : Option BiquadFilterNode := none
deriving DecidableEq

/-- The `Voice` constructor: stores `frequency`, `maxAmp` and the output sink
verbatim and fixes `attack = 0.02`, `decay = 0.01`, `sustain = 0.5`,
`release = 0.5`.  No nodes are created and nothing else is touched. -/
def Voice.construct (freq maxAmp : ℚ) (out : NodeRef) : Voice :=
  { frequency := freq, maxAmp := maxAmp, output := out,
    attack := 2/100, decay := 1/100, sustain := 1/2, release := 1/2 }

/-- Envelope gain of the voice at time `t` (0 when no envelope node exists). -/
def Voice.envGainAt (v : Voice) (t : ℚ) : ℚ :=
  match v.ampEnv with
  | none => 0
  | some env => paramValue env.gainValue env.gainEvents t

/-- The connections wired by `Voice.start`, in program order: modulator to the
ring-mod gain parameter, the three (scaled) oscillators into the ring-mod
stage, then ring-mod → envelope → lowpass → output sink. -/
def Voice.startConns (out : NodeRef) : List Conn :=
  [ ⟨NodeRef.ringModModulator, Dest.gainParam NodeRef.ringModGain⟩,
    ⟨NodeRef.osc, Dest.node NodeRef.ringModGain⟩,
    ⟨NodeRef.osc2, Dest.node NodeRef.osc2scale⟩,
    ⟨NodeRef.osc2scale, Dest.node NodeRef.ringModGain⟩,
    ⟨NodeRef.osc3, Dest.node NodeRef.osc3scale⟩,
    ⟨NodeRef.osc3scale, Dest.node NodeRef.ringModGain⟩,
    ⟨NodeRef.ringModGain, Dest.node NodeRef.ampEnv⟩,
    ⟨NodeRef.ampEnv, Dest.node NodeRef.lpFilter⟩,
    ⟨NodeRef.lpFilter, Dest.node out⟩ ]

/-- The whole system: the voice object plus the audio-graph connection list
(which may already contain other voices' connections into the shared sink). -/
structure Sys where
  voice : Voice
  conns : List Conn
deriving DecidableEq

/-- Construct a fresh voice over an existing connection list. -/
def Sys.newVoice (c : List Conn) (freq maxAmp : ℚ) (out : NodeRef) : Sys :=
  ⟨Voice.construct freq maxAmp out, c⟩

/-- `Voice.start()` at clock time `now`: creates the four oscillators, the two
scalers, the ring-mod stage (gain 0), the envelope (gain 0, then
`setValueAtTime(0, now)` and the attack/decay ramps) and the lowpass filter;
wires `Voice.startConns`; starts every oscillator at `now`.  The filter
options object is `{type: lowpass, frequency: frequency + 2000, q: 2}`: the
`BiquadFilterOptions` member for resonance is capital `Q`, so the lowercase
`q` key is dropped by dictionary conversion and the filter keeps the default
`Q = 1`.  (`osc.onended` is wired to `dispose`; disposal is invoked
explicitly in the scenarios below when that event fires.) -/
def Sys.start (s : Sys) (now : ℚ) : Sys :=
  { voice :=
      { s.voice with
          osc := some { freqEvents := [AutomationEvent.setValue s.voice.frequency now],
                        startTime := some now },
          osc2 := some { type := Waveform.sawtooth,
                         freqEvents := [AutomationEvent.setValue (s.voice.frequency * 2) now],
                         startTime := some now },
          osc3 := some { type := Waveform.triangle,
                         freqEvents := [AutomationEvent.setValue (s.voice.frequency / 2) now],
                         startTime := some now },
          osc2scale := some { gainValue := 1/2 },
          osc3scale := some { gainValue := 1 },
          ringModGain := some { gainValue := 0 },
          ringModModulator := some { freqValue := s.voice.frequency / 128,
                                     startTime := some now },
          ampEnv := some { gainValue := 0,
                           gainEvents :=
                             [AutomationEvent.setValue 0 now,
                              AutomationEvent.linearRamp s.voice.maxAmp (now + s.voice.attack),
                              AutomationEvent.linearRamp (s.voice.sustain * s.voice.maxAmp)
                                (now + s.voice.attack + s.voice.decay)] },
          lpFilter := some { type := FilterType.lowpass,
                             frequency := s.voice.frequency + 2000 } },
    conns := s.conns ++ Voice.startConns s.voice.output }

/-- `Voice.stop()` at clock time `now`.  Its first statement reads
`this.ampEnv.gain`, which throws a TypeError when the voice was never started
(`ampEnv` absent), leaving everything unchanged.  Otherwise it cancels the
scheduled envelope events at or after `now`, re-reads `gain.value` (computed
from the post-cancellation timeline), pins that value at `now`, schedules the
release ramp to 0 at `now + release`, and schedules all four oscillators to
stop at `now + release + 0.01`. -/
def Sys.stop (s : Sys) (now : ℚ) : Option String × Sys :=
  match s.voice.ampEnv with
  | none => (some "TypeError: Cannot read properties of undefined (reading gain)", s)
  | some env =>
    let evs := cancelScheduledValues env.gainEvents now
    let g := paramValue env.gainValue evs now
    let env2 : GainNode :=
      { env with gainEvents := evs ++ [AutomationEvent.setValue g now,
                                       AutomationEvent.linearRamp 0 (now + s.voice.release)] }
    let st := now + s.voice.release + 1/100
    match s.voice.osc, s.voice.osc2, s.voice.osc3, s.voice.ringModModulator with
    | some o1, some o2, some o3, some om =>
        (none,
         { s with voice :=
            { s.voice with
                ampEnv := some env2,
                osc := some { o1 with stopTime := some st },
                osc2 := some { o2 with stopTime := some st },
                osc3 := some { o3 with stopTime := some st },
                ringModModulator := some { om with stopTime := some st } } })
    | _, _, _, _ =>
        (some "TypeError: Cannot read properties of null (reading stop)",
         { s with voice := { s.voice with ampEnv := some env2 } })

/-- `Voice.dispose()`: disconnects `osc`, `osc2`, `osc3`, `osc2scale`,
`osc3scale`, `ringModGain`, `ringModModulator` and `ampEnv` (in program
order) and nulls those eight fields.  `lpFilter` appears in neither list in
the source, so it is neither disconnected nor nulled.  When the fields are
already null (second invocation, or before `start`), the very first statement
`this.osc.disconnect()` throws a TypeError and nothing changes. -/
def Sys.dispose (s : Sys) : Option String × Sys :=
  match s.voice.osc, s.voice.osc2, s.voice.osc3, s.voice.osc2scale, s.voice.osc3scale,
        s.voice.ringModGain, s.voice.ringModModulator, s.voice.ampEnv with
  | some _, some _, some _, some _, some _, some _, some _, some _ =>
    let c1 := disconnectNode s.conns NodeRef.osc
    let c2 := disconnectNode c1 NodeRef.osc2
    let c3 := disconnectNode c2 NodeRef.osc3
    let c4 := disconnectNode c3 NodeRef.osc2scale
    let c5 := disconnectNode c4 NodeRef.osc3scale
    let c6 := disconnectNode c5 NodeRef.ringModGain
    let c7 := disconnectNode c6 NodeRef.ringModModulator
    let c8 := disconnectNode c7 NodeRef.ampEnv
    (none,
     { voice := { s.voice with osc := none, osc2 := none, osc3 := none,
                               osc2scale := none, osc3scale := none,
                               ringModGain := none, ringModModulator := none,
                               ampEnv := none },
       conns := c8 })
  | _, _, _, _, _, _, _, _ =>
    (some "TypeError: Cannot read properties of null (reading disconnect)", s)

/-- Output sample of a gain node whose `gain` `AudioParam` has base value
`base` and a connected modulation signal: Web Audio computes the effective
gain as the parameter value plus the summed audio input to the parameter. -/
def gainNodeOutput (base inputSignal modSignal : ℚ) : ℚ :=
  inputSignal * (base + modSignal)

/-- Signal edge of the graph: a plain node-to-node connection (connections
into a `gain` parameter are not signal edges). -/
def sedge (conns : List Conn) (a b : NodeRef) : Bool :=
  decide (Conn.mk a (Dest.node b) ∈ conns)

/-- `isPath conns a mid b`: `mid` lists the intermediate nodes of a signal
path from `a` to `b`. -/
def isPath (conns : List Conn) : NodeRef → List NodeRef → NodeRef → Bool
  | a, [], b => sedge conns a b
  | a, c :: rest, b => sedge conns a c && isPath conns c rest b

/-- The unique downstream chain of each node of the started graph (a node
with no signal out-edge maps to `[]`). -/
def chainFrom : NodeRef → List NodeRef
  | NodeRef.osc => [NodeRef.osc, NodeRef.ringModGain, NodeRef.ampEnv, NodeRef.lpFilter]
  | NodeRef.osc2 => [NodeRef.osc2, NodeRef.osc2scale, NodeRef.ringModGain,
                     NodeRef.ampEnv, NodeRef.lpFilter]
  | NodeRef.osc3 => [NodeRef.osc3, NodeRef.osc3scale, NodeRef.ringModGain,
                     NodeRef.ampEnv, NodeRef.lpFilter]
  | NodeRef.osc2scale => [NodeRef.osc2scale, NodeRef.ringModGain, NodeRef.ampEnv,
                          NodeRef.lpFilter]
  | NodeRef.osc3scale => [NodeRef.osc3scale, NodeRef.ringModGain, NodeRef.ampEnv,
                          NodeRef.lpFilter]
  | NodeRef.ringModGain => [NodeRef.ringModGain, NodeRef.ampEnv, NodeRef.lpFilter]
  | NodeRef.ampEnv => [NodeRef.ampEnv, NodeRef.lpFilter]
  | NodeRef.lpFilter => [NodeRef.lpFilter]
  | NodeRef.ringModModulator => []
  | NodeRef.output => []

/-- Scenario: construct over connection list `c`, `start()` at `t0`, then
`stop()` at `t1`. -/
def runStartStop (f m t0 t1 : ℚ) (c : List Conn) : Option String × Sys :=
  ((Sys.newVoice c f m NodeRef.output).start t0).stop t1

/-- Concrete scenario for the disposal claims: `Voice(clock, 440, 0.8, sink)`
over an initially empty graph. -/
def demo0 : Sys := Sys.newVoice [] 440 (4/5) NodeRef.output

/-- `demo0` started at `t0 = 0`. -/
def demo1 : Sys := demo0.start 0

/-- `demo1` stopped at `t1 = 1`. -/
def demo2 : Sys := (demo1.stop 1).2

/-- `demo2` after the `ended` event fires and `dispose()` runs. -/
def demo3 : Option String × Sys := demo2.dispose

/-- The envelope timeline after `stop()` at `t1` in the sustain phase: the
three events scheduled by `start()` at `t0` (all strictly earlier than `t1`,
hence kept by the cancellation), the pinned sustain value at `t1`, and the
release ramp to 0 at `t1 + 0.5`. -/
def releaseEvents (m t0 t1 : ℚ) : List AutomationEvent :=
  [AutomationEvent.setValue 0 t0,
   AutomationEvent.linearRamp m (t0 + 2/100),
   AutomationEvent.linearRamp (1/2 * m) (t0 + 2/100 + 1/100),
   AutomationEvent.setValue (1/2 * m) t1,
   AutomationEvent.linearRamp 0 (t1 + 1/2)]

theorem valAux_nil (pv pt t : ℚ) : valAux pv pt [] t = pv := rfl

theorem valAux_set_ge {pv pt v t0 t : ℚ} {rest : List AutomationEvent} (h : t0 ≤ t) :
    valAux pv pt (AutomationEvent.setValue v t0 :: rest) t = valAux v t0 rest t := by
  simp only [valAux]
  rw [if_neg (not_lt.mpr h)]

theorem valAux_set_lt {pv pt v t0 t : ℚ} {rest : List AutomationEvent} (h : t < t0) :
    valAux pv pt (AutomationEvent.setValue v t0 :: rest) t = pv := by
  simp only [valAux]
  rw [if_pos h]

theorem valAux_ramp_le {pv pt v t1 t : ℚ} {rest : List AutomationEvent} (h : t ≤ pt) :
    valAux pv pt (AutomationEvent.linearRamp v t1 :: rest) t = pv := by
  simp only [valAux]
  rw [if_pos h]

theorem valAux_ramp_mid {pv pt v t1 t : ℚ} {rest : List AutomationEvent}
    (h1 : pt < t) (h2 : t < t1) :
    valAux pv pt (AutomationEvent.linearRamp v t1 :: rest) t
      = pv + (v - pv) * (t - pt) / (t1 - pt) := by
  simp only [valAux]
  rw [if_neg (not_le.mpr h1), if_pos h2]

theorem valAux_ramp_ge {pv pt v t1 t : ℚ} {rest : List AutomationEvent}
    (h1 : pt < t) (h2 : t1 ≤ t) :
    valAux pv pt (AutomationEvent.linearRamp v t1 :: rest) t = valAux v t1 rest t := by
  simp only [valAux]
  rw [if_neg (not_le.mpr h1), if_neg (not_lt.mpr h2)]

theorem cancel_keeps_all (evs : List AutomationEvent) (t : ℚ)
    (h : ∀ e ∈ evs, e.time < t) : cancelScheduledValues evs t = evs :=
  List.filter_eq_self.mpr (fun e he => decide_eq_true (h e he))

theorem chain_step : ∀ a b : NodeRef,
    sedge (Voice.startConns NodeRef.output) a b = true → chainFrom a = a :: chainFrom b := by
  decide

theorem chain_nil : ∀ a : NodeRef,
    sedge (Voice.startConns NodeRef.output) a NodeRef.output = true → [a] = chainFrom a := by
  decide

theorem path_unique : ∀ (mid : List NodeRef) (a : NodeRef),
    isPath (Voice.startConns NodeRef.output) a mid NodeRef.output = true →
    a :: mid = chainFrom a := by
  intro mid
  induction mid with
  | nil => exact fun a h => chain_nil a h
  | cons b rest ih =>
    intro a h
    simp only [isPath, Bool.and_eq_true] at h
    rw [chain_step a b h.1]
    exact congrArg (List.cons a) (ih b h.2)

theorem envGainAt_eq (v : Voice) (env : GainNode) (h : v.ampEnv = some env) (t : ℚ) :
    v.envGainAt t = paramValue env.gainValue env.gainEvents t := by
  simp only [Voice.envGainAt, h]

theorem startEnv_shape (f m t0 : ℚ) (c : List Conn) :
    ((Sys.newVoice c f m NodeRef.output).start t0).voice.ampEnv
      = some { gainValue := 0,
               gainEvents := [AutomationEvent.setValue 0 t0,
                              AutomationEvent.linearRamp m (t0 + 2/100),
                              AutomationEvent.linearRamp (1/2 * m) (t0 + 2/100 + 1/100)] } := rfl

theorem paramValue_sustain (m t0 t : ℚ) (h : t0 + 2/100 + 1/100 ≤ t) :
    paramValue 0 [AutomationEvent.setValue 0 t0,
                  AutomationEvent.linearRamp m (t0 + 2/100),
                  AutomationEvent.linearRamp (1/2 * m) (t0 + 2/100 + 1/100)] t = 1/2 * m := by
  unfold paramValue
  rw [valAux_set_ge (show t0 ≤ t by linarith),
      valAux_ramp_ge (show t0 < t by linarith) (show t0 + 2/100 ≤ t by linarith),
      valAux_ramp_ge (show t0 + 2/100 < t by linarith) h, valAux_nil]

theorem stopEnv_shape (f m t0 t1 : ℚ) (c : List Conn) (ht : t0 + 3/100 < t1) :
    (runStartStop f m t0 t1 c).2.voice.ampEnv
      = some { gainValue := 0, gainEvents := releaseEvents m t0 t1 } := by
  have hall : ∀ e ∈ [AutomationEvent.setValue 0 t0,
                     AutomationEvent.linearRamp m (t0 + 2/100),
                     AutomationEvent.linearRamp (1/2 * m) (t0 + 2/100 + 1/100)],
      e.time < t1 := by
    intro e he
    simp only [List.mem_cons, List.not_mem_nil, or_false] at he
    rcases he with rfl | rfl | rfl <;> simp only [AutomationEvent.time] <;> linarith
  simp only [runStartStop, Sys.newVoice, Voice.construct, Sys.start, Sys.stop]
  rw [cancel_keeps_all _ _ hall]
  rw [show paramValue 0 [AutomationEvent.setValue 0 t0,
        AutomationEvent.linearRamp m (t0 + 2/100),
        AutomationEvent.linearRamp (1/2 * m) (t0 + 2/100 + 1/100)] t1 = 1/2 * m from
      paramValue_sustain m t0 t1 (by linarith)]
  rfl

theorem paramValue_release (m t0 t1 s : ℚ) (ht : t0 + 2/100 + 1/100 < t1)
    (hs : t1 ≤ s) (hs2 : s < t1 + 1/2) :
    paramValue 0 (releaseEvents m t0 t1) s = 1/2 * m - m * (s - t1) := by
  unfold paramValue releaseEvents
  rw [valAux_set_ge (show t0 ≤ s by linarith),
      valAux_ramp_ge (show t0 < s by linarith) (show t0 + 2/100 ≤ s by linarith),
      valAux_ramp_ge (show t0 + 2/100 < s by linarith) (show t0 + 2/100 + 1/100 ≤ s by linarith),
      valAux_set_ge hs]
  rcases eq_or_lt_of_le hs with heq | hlt
  · rw [valAux_ramp_le (le_of_eq heq.symm)]
    rw [← heq]
    ring
  · rw [valAux_ramp_mid hlt hs2]
    have hden : t1 + 1/2 - t1 = 1/2 := by ring
    rw [hden]
    field_simp
    ring

theorem paramValue_release_end (m t0 t1 s : ℚ) (ht : t0 + 2/100 + 1/100 < t1)
    (hs : t1 + 1/2 ≤ s) :
    paramValue 0 (releaseEvents m t0 t1) s = 0 := by
  unfold paramValue releaseEvents
  rw [valAux_set_ge (show t0 ≤ s by linarith),
      valAux_ramp_ge (show t0 < s by linarith) (show t0 + 2/100 ≤ s by linarith),
      valAux_ramp_ge (show t0 + 2/100 < s by linarith) (show t0 + 2/100 + 1/100 ≤ s by linarith),
      valAux_set_ge (show t1 ≤ s by linarith),
      valAux_ramp_ge (show t1 < s by linarith) hs, valAux_nil]

theorem lp_conn_survives (l : List Conn)
    (h : Conn.mk NodeRef.lpFilter (Dest.node NodeRef.output) ∈ l) :
    Conn.mk NodeRef.lpFilter (Dest.node NodeRef.output) ∈
      disconnectNode (disconnectNode (disconnectNode (disconnectNode (disconnectNode
        (disconnectNode (disconnectNode (disconnectNode l NodeRef.osc) NodeRef.osc2)
          NodeRef.osc3) NodeRef.osc2scale) NodeRef.osc3scale) NodeRef.ringModGain)
        NodeRef.ringModModulator) NodeRef.ampEnv := by
  simp only [disconnectNode, List.mem_filter]
  exact ⟨⟨⟨⟨⟨⟨⟨⟨h, rfl⟩, rfl⟩, rfl⟩, rfl⟩, rfl⟩, rfl⟩, rfl⟩, rfl⟩

/-- Claim C1: the spec (and the doc comment of `dispose` itself) promises that
after the stop sequence completes and `dispose()` runs, every node field is
released, every owned node is disconnected, and the sink's incoming-connection
count returns to its pre-`start()` value.  The code violates this: `dispose`
neither disconnects nor nulls `this.lpFilter`, so for the concrete run
`Voice(clock, 440, 0.8, sink)`, `start()` at 0, `stop()` at 1, `dispose()` on
the ended event, the voice still holds its lowpass filter node and the sink
keeps one incoming connection (pre-`start()` it had zero). -/
theorem dispose_leaks_lpFilter :
    (demo3.1 = none) ∧
    (demo3.2.voice.lpFilter ≠ none) ∧
    (demo3.2.voice.osc = none) ∧
    (sinkInCount demo0.conns NodeRef.output = 0) ∧
    (sinkInCount demo3.2.conns NodeRef.output = 1) :=
  ⟨rfl, by decide, rfl, rfl, by decide⟩

/-- Counterexample to claim C2 as stated: in the concrete run behind `demo3`,
the second `dispose()` raises a TypeError (the first call nulled the node
fields, so `this.osc.disconnect()` reads a property of null), and a residual
connection from the lowpass filter to the output sink remains even after the
first `dispose()`. -/
theorem double_dispose_error_cex :
    ((demo3.2.dispose).1
       = some "TypeError: Cannot read properties of null (reading disconnect)") ∧
    (Conn.mk NodeRef.lpFilter (Dest.node NodeRef.output) ∈ demo3.2.conns) :=
  ⟨rfl, by decide⟩

/-- Claim C2 (amended): for every started-then-stopped Voice, the first
`dispose()` succeeds, but the second invocation raises a TypeError at its
very first statement (the node references were nulled, not merely
disconnected, by the first call) and changes nothing; moreover the
`lpFilter → output` connection to the sink survives disposal. -/
theorem double_dispose_second_call (f m t0 t1 : ℚ) (c : List Conn) :
    (((runStartStop f m t0 t1 c).2.dispose).1 = none) ∧
    (((runStartStop f m t0 t1 c).2.dispose).2.dispose
       = (some "TypeError: Cannot read properties of null (reading disconnect)",
          ((runStartStop f m t0 t1 c).2.dispose).2)) ∧
    (Conn.mk NodeRef.lpFilter (Dest.node NodeRef.output)
       ∈ ((runStartStop f m t0 t1 c).2.dispose).2.conns) :=
  ⟨rfl, rfl,
   lp_conn_survives (c ++ Voice.startConns NodeRef.output) (by simp [Voice.startConns])⟩

/-- Claim C3 (code bug): after `start()` the filter has type lowpass and
cutoff `f + 2000` as claimed, but its resonance is the default `Q = 1`, not
the claimed 2: the source passes the resonance under the lowercase key `q`,
while the `BiquadFilterOptions` member is capital `Q`, so the option is
silently ignored.  The claim (and the intent evident from the options object)
says `Q = 2`; the code as written never sets it. -/
theorem lpFilter_configuration (f m t0 : ℚ) (c : List Conn) :
    (((Sys.newVoice c f m NodeRef.output).start t0).voice.lpFilter
       = some { type := FilterType.lowpass, frequency := f + 2000, Q := 1 }) ∧
    (((Sys.newVoice c f m NodeRef.output).start t0).voice.lpFilter.map
       (fun fl => fl.Q) = some 1) ∧
    (((Sys.newVoice c f m NodeRef.output).start t0).voice.lpFilter.map
       (fun fl => fl.Q) ≠ some 2) := by
  refine ⟨rfl, rfl, ?_⟩
  simp only [Sys.newVoice, Voice.construct, Sys.start, Option.map_some', ne_eq,
    Option.some.injEq]
  norm_num

/-- Claim C4: for a Voice with `maxAmp = m` started at `t0`, the scheduled
envelope gain is 0 at `t0`, `m` at `t0 + 0.02`, `0.5·m` at `t0 + 0.03`, and
stays at `0.5·m` for every later time (until `stop()` replaces the
schedule). -/
theorem ampEnv_adsr_schedule (f m t0 : ℚ) (c : List Conn) :
    (((Sys.newVoice c f m NodeRef.output).start t0).voice.envGainAt t0 = 0) ∧
    (((Sys.newVoice c f m NodeRef.output).start t0).voice.envGainAt (t0 + 2/100) = m) ∧
    (((Sys.newVoice c f m NodeRef.output).start t0).voice.envGainAt (t0 + 3/100) = 1/2 * m) ∧
    (∀ t, t0 + 3/100 ≤ t →
      ((Sys.newVoice c f m NodeRef.output).start t0).voice.envGainAt t = 1/2 * m) := by
  refine ⟨?_, ?_, ?_, ?_⟩
  · rw [envGainAt_eq _ _ (startEnv_shape f m t0 c)]
    unfold paramValue
    rw [valAux_set_ge (le_refl t0), valAux_ramp_le (le_refl t0)]
  · rw [envGainAt_eq _ _ (startEnv_shape f m t0 c)]
    unfold paramValue
    rw [valAux_set_ge (show t0 ≤ t0 + 2/100 by linarith),
        valAux_ramp_ge (show t0 < t0 + 2/100 by linarith) (le_refl (t0 + 2/100)),
        valAux_ramp_le (le_refl (t0 + 2/100))]
  · rw [envGainAt_eq _ _ (startEnv_shape f m t0 c)]
    exact paramValue_sustain m t0 (t0 + 3/100) (by linarith)
  · intro t htt
    rw [envGainAt_eq _ _ (startEnv_shape f m t0 c)]
    exact paramValue_sustain m t0 t (by linarith)

/-- Witness for C4: for `Voice(clock, 440, 0.8, sink)` started at 0, the
envelope gain at time 1 (sustain phase) is `0.5 · 0.8`. -/
theorem ampEnv_adsr_schedule_witness :
    ((Sys.newVoice [] 440 (4/5) NodeRef.output).start 0).voice.envGainAt 1 = 1/2 * (4/5) :=
  (ampEnv_adsr_schedule 440 (4/5) 0 []).2.2.2 1 (by norm_num)

/-- Counterexample to claim C5 as stated: stopping mid-attack shows the code
does not pin the envelope to the gain it had when `stop()` was called.  With
`maxAmp = 0.8`, `start()` at 0 and `stop()` at `t1 = 0.01`, the envelope gain
at `t1` was `0.4` (halfway up the attack ramp), but the code cancels the
scheduled ramps before reading `gain.value`, so it pins `0` at `t1` instead
of `0.4`. -/
theorem stop_midattack_pin_cex :
    (((Sys.newVoice [] 440 (4/5) NodeRef.output).start 0).voice.envGainAt (1/100) = 2/5) ∧
    ((runStartStop 440 (4/5) 0 (1/100) []).2.voice.envGainAt (1/100) = 0) ∧
    ((2 : ℚ)/5 ≠ 0) := by
  refine ⟨?_, ?_, by norm_num⟩
  · norm_num [Sys.newVoice, Voice.construct, Sys.start, Voice.envGainAt, paramValue, valAux]
  · norm_num [runStartStop, Sys.newVoice, Voice.construct, Sys.start, Sys.stop, Voice.envGainAt,
      paramValue, valAux, cancelScheduledValues, AutomationEvent.time, List.filter]

/-- Claim C5 (amended): for a started Voice stopped at a sustain-phase time
`t1` (`t0 + 0.03 < t1`) with `maxAmp = m > 0`, `stop()` cancels the envelope
events scheduled at or after `t1` (here: none, so the three start events
remain), pins the post-cancellation gain — which in the sustain phase equals
the instantaneous gain `0.5·m` — at `t1`, schedules a linear release ramp
reaching 0 at `t1 + 0.5` that is strictly decreasing on `[t1, t1 + 0.5]`, and
schedules all four oscillators to stop at `t1 + 0.5 + 0.01 = t1 + 0.51`.
(When `stop()` interrupts a pending ramp the pinned value is the
post-cancellation value, not the instantaneous gain — see the
counterexample.) -/
theorem stop_release_schedule (f m t0 t1 : ℚ) (c : List Conn)
    (hm : 0 < m) (ht : t0 + 3/100 < t1) :
    ((runStartStop f m t0 t1 c).1 = none) ∧
    ((runStartStop f m t0 t1 c).2.voice.ampEnv
       = some { gainValue := 0, gainEvents := releaseEvents m t0 t1 }) ∧
    ((runStartStop f m t0 t1 c).2.voice.envGainAt t1 = 1/2 * m) ∧
    (∀ s s' : ℚ, t1 ≤ s → s < s' → s' ≤ t1 + 1/2 →
       (runStartStop f m t0 t1 c).2.voice.envGainAt s'
         < (runStartStop f m t0 t1 c).2.voice.envGainAt s) ∧
    ((runStartStop f m t0 t1 c).2.voice.envGainAt (t1 + 1/2) = 0) ∧
    ((runStartStop f m t0 t1 c).2.voice.osc.map (fun o => o.stopTime)
       = some (some (t1 + 1/2 + 1/100))) ∧
    ((runStartStop f m t0 t1 c).2.voice.osc2.map (fun o => o.stopTime)
       = some (some (t1 + 1/2 + 1/100))) ∧
    ((runStartStop f m t0 t1 c).2.voice.osc3.map (fun o => o.stopTime)
       = some (some (t1 + 1/2 + 1/100))) ∧
    ((runStartStop f m t0 t1 c).2.voice.ringModModulator.map (fun o => o.stopTime)
       = some (some (t1 + 1/2 + 1/100))) := by
  have hE := stopEnv_shape f m t0 t1 c ht
  refine ⟨rfl, hE, ?_, ?_, ?_, rfl, rfl, rfl, rfl⟩
  · rw [envGainAt_eq _ _ hE,
        paramValue_release m t0 t1 t1 (by linarith) le_rfl (by linarith)]
    ring
  · intro s s' hs hss hs'
    rw [envGainAt_eq _ _ hE, envGainAt_eq _ _ hE]
    rcases lt_or_eq_of_le hs' with h2 | h2
    · rw [paramValue_release m t0 t1 s (by linarith) hs (by linarith),
          paramValue_release m t0 t1 s' (by linarith) (by linarith) h2]
      have key := mul_lt_mul_of_pos_left (show s - t1 < s' - t1 by linarith) hm
      linarith
    · rw [h2, paramValue_release_end m t0 t1 (t1 + 1/2) (by linarith) le_rfl,
          paramValue_release m t0 t1 s (by linarith) hs (by linarith)]
      have key : 0 < m * (1/2 - (s - t1)) := mul_pos hm (by linarith)
      nlinarith [key]
  · rw [envGainAt_eq _ _ hE]
    exact paramValue_release_end m t0 t1 (t1 + 1/2) (by linarith) le_rfl

/-- Witness for C5 (amended): in the concrete run `maxAmp = 0.8`, `start()`
at 0, `stop()` at 1, the release ramp is strictly decreasing between the
sample times `9/8` and `5/4`. -/
theorem stop_release_schedule_witness :
    (runStartStop 440 (4/5) 0 1 []).2.voice.envGainAt (5/4)
      < (runStartStop 440 (4/5) 0 1 []).2.voice.envGainAt (9/8) :=
  (stop_release_schedule 440 (4/5) 0 1 [] (by norm_num) (by norm_num)).2.2.2.1
    (9/8) (5/4) (by norm_num) (by norm_num) (by norm_num)

/-- Claim C6: after `start()` the graph has exactly the documented topology:
each of the three signal oscillators reaches the output sink through exactly
one signal path, namely the chain ring-mod gain stage → envelope gain →
lowpass filter → output (the harmonic through its 0.5-gain scaler and the
subharmonic through its 1.0-gain scaler), and the modulator oscillator's only
connection is to the ring-mod stage's gain parameter, never to a signal
input. -/
theorem signal_graph_topology (f m t0 : ℚ) (c : List Conn) :
    (((Sys.newVoice c f m NodeRef.output).start t0).voice.osc2scale
       = some { gainValue := 1/2, gainEvents := [] }) ∧
    (((Sys.newVoice c f m NodeRef.output).start t0).voice.osc3scale
       = some { gainValue := 1, gainEvents := [] }) ∧
    (((Sys.newVoice c f m NodeRef.output).start t0).conns
       = c ++ Voice.startConns NodeRef.output) ∧
    (isPath (Voice.startConns NodeRef.output) NodeRef.osc
       [NodeRef.ringModGain, NodeRef.ampEnv, NodeRef.lpFilter] NodeRef.output = true) ∧
    (∀ mid, isPath (Voice.startConns NodeRef.output) NodeRef.osc mid NodeRef.output = true →
       mid = [NodeRef.ringModGain, NodeRef.ampEnv, NodeRef.lpFilter]) ∧
    (isPath (Voice.startConns NodeRef.output) NodeRef.osc2
       [NodeRef.osc2scale, NodeRef.ringModGain, NodeRef.ampEnv, NodeRef.lpFilter]
       NodeRef.output = true) ∧
    (∀ mid, isPath (Voice.startConns NodeRef.output) NodeRef.osc2 mid NodeRef.output = true →
       mid = [NodeRef.osc2scale, NodeRef.ringModGain, NodeRef.ampEnv, NodeRef.lpFilter]) ∧
    (isPath (Voice.startConns NodeRef.output) NodeRef.osc3
       [NodeRef.osc3scale, NodeRef.ringModGain, NodeRef.ampEnv, NodeRef.lpFilter]
       NodeRef.output = true) ∧
    (∀ mid, isPath (Voice.startConns NodeRef.output) NodeRef.osc3 mid NodeRef.output = true →
       mid = [NodeRef.osc3scale, NodeRef.ringModGain, NodeRef.ampEnv, NodeRef.lpFilter]) ∧
    (∀ d : Dest, Conn.mk NodeRef.ringModModulator d ∈ Voice.startConns NodeRef.output
       ↔ d = Dest.gainParam NodeRef.ringModGain) := by
  refine ⟨rfl, rfl, rfl, by decide, ?_, by decide, ?_, by decide, ?_, by decide⟩
  · intro mid h
    have hp := path_unique mid NodeRef.osc h
    simpa [chainFrom] using hp
  · intro mid h
    have hp := path_unique mid NodeRef.osc2 h
    simpa [chainFrom] using hp
  · intro mid h
    have hp := path_unique mid NodeRef.osc3 h
    simpa [chainFrom] using hp

/-- Witness for C6: the unique-path components applied at the concrete
intermediate chains, and the modulator's parameter connection. -/
theorem signal_graph_topology_witness :
    ([NodeRef.ringModGain, NodeRef.ampEnv, NodeRef.lpFilter]
       = [NodeRef.ringModGain, NodeRef.ampEnv, NodeRef.lpFilter]) ∧
    (Conn.mk NodeRef.ringModModulator (Dest.gainParam NodeRef.ringModGain)
       ∈ Voice.startConns NodeRef.output) :=
  ⟨(signal_graph_topology 440 (4/5) 0 []).2.2.2.2.1
     [NodeRef.ringModGain, NodeRef.ampEnv, NodeRef.lpFilter] (by decide),
   ((signal_graph_topology 440 (4/5) 0 []).2.2.2.2.2.2.2.2.2
     (Dest.gainParam NodeRef.ringModGain)).mpr rfl⟩

/-- Claim C7: after `start()` at `t0`, for every time `t ≥ t0` the primary
oscillator runs at `f` (sine), the harmonic at `f * 2` (sawtooth), the
subharmonic at `f / 2` (triangle), and the modulator at `f / 128`. -/
theorem oscillator_frequencies (f m t0 t : ℚ) (c : List Conn) (h : t0 ≤ t) :
    (((Sys.newVoice c f m NodeRef.output).start t0).voice.osc.map
        (fun o => (o.type, o.freqAt t)) = some (Waveform.sine, f)) ∧
    (((Sys.newVoice c f m NodeRef.output).start t0).voice.osc2.map
        (fun o => (o.type, o.freqAt t)) = some (Waveform.sawtooth, f * 2)) ∧
    (((Sys.newVoice c f m NodeRef.output).start t0).voice.osc3.map
        (fun o => (o.type, o.freqAt t)) = some (Waveform.triangle, f / 2)) ∧
    (((Sys.newVoice c f m NodeRef.output).start t0).voice.ringModModulator.map
        (fun o => o.freqAt t) = some (f / 128)) := by
  refine ⟨?_, ?_, ?_, ?_⟩
  · simp only [Sys.newVoice, Voice.construct, Sys.start, Option.map_some',
      OscillatorNode.freqAt, paramValue]
    rw [valAux_set_ge h, valAux_nil]
  · simp only [Sys.newVoice, Voice.construct, Sys.start, Option.map_some',
      OscillatorNode.freqAt, paramValue]
    rw [valAux_set_ge h, valAux_nil]
  · simp only [Sys.newVoice, Voice.construct, Sys.start, Option.map_some',
      OscillatorNode.freqAt, paramValue]
    rw [valAux_set_ge h, valAux_nil]
  · simp only [Sys.newVoice, Voice.construct, Sys.start, Option.map_some',
      OscillatorNode.freqAt, paramValue]
    rw [valAux_nil]

/-- Witness for C7: for `f = 440` the harmonic and subharmonic run at 880 and
220 Hz; for `f = 256` the modulator runs at 2 Hz. -/
theorem oscillator_frequencies_witness :
    (((Sys.newVoice [] 440 1 NodeRef.output).start 0).voice.osc2.map
        (fun o => (o.type, o.freqAt 0)) = some (Waveform.sawtooth, 880)) ∧
    (((Sys.newVoice [] 440 1 NodeRef.output).start 0).voice.osc3.map
        (fun o => (o.type, o.freqAt 0)) = some (Waveform.triangle, 220)) ∧
    (((Sys.newVoice [] 256 1 NodeRef.output).start 0).voice.ringModModulator.map
        (fun o => o.freqAt 0) = some 2) := by
  have h4 := oscillator_frequencies 440 1 0 0 [] le_rfl
  have h2 := oscillator_frequencies 256 1 0 0 [] le_rfl
  refine ⟨?_, ?_, ?_⟩
  · have hx := h4.2.1
    rw [show ((440 : ℚ) * 2) = 880 by norm_num] at hx
    exact hx
  · have hx := h4.2.2.1
    rw [show ((440 : ℚ) / 2) = 220 by norm_num] at hx
    exact hx
  · have hx := h2.2.2.2
    rw [show ((256 : ℚ) / 128) = 2 by norm_num] at hx
    exact hx

/-- Claim C8: for every input tuple, including out-of-range values, the
constructor stores the parameters unmodified and the fixed ADSR constants,
creates no nodes, raises nothing (it is total), and leaves the graph
(connection list) unchanged. -/
theorem construct_stores_params (f m : ℚ) (out : NodeRef) (c : List Conn) :
    ((Sys.newVoice c f m out).voice.frequency = f) ∧
    ((Sys.newVoice c f m out).voice.maxAmp = m) ∧
    ((Sys.newVoice c f m out).voice.output = out) ∧
    ((Sys.newVoice c f m out).voice.attack = 2/100) ∧
    ((Sys.newVoice c f m out).voice.decay = 1/100) ∧
    ((Sys.newVoice c f m out).voice.sustain = 1/2) ∧
    ((Sys.newVoice c f m out).voice.release = 1/2) ∧
    ((Sys.newVoice c f m out).voice.osc = none) ∧
    ((Sys.newVoice c f m out).voice.osc2 = none) ∧
    ((Sys.newVoice c f m out).voice.osc3 = none) ∧
    ((Sys.newVoice c f m out).voice.osc2scale = none) ∧
    ((Sys.newVoice c f m out).voice.osc3scale = none) ∧
    ((Sys.newVoice c f m out).voice.ringModGain = none) ∧
    ((Sys.newVoice c f m out).voice.ringModModulator = none) ∧
    ((Sys.newVoice c f m out).voice.ampEnv = none) ∧
    ((Sys.newVoice c f m out).voice.lpFilter = none) ∧
    ((Sys.newVoice c f m out).conns = c) :=
  ⟨rfl, rfl, rfl, rfl, rfl, rfl, rfl, rfl, rfl, rfl, rfl, rfl, rfl, rfl, rfl, rfl, rfl⟩

/-- Claim C9: `stop()` on a never-started Voice throws a TypeError at its
first statement (`this.ampEnv` is undefined, so reading its `gain` fails):
no cancellation, no release ramp and no oscillator stop is scheduled, and the
whole system state is returned unchanged. -/
theorem stop_before_start_raises (f m t1 : ℚ) (out : NodeRef) (c : List Conn) :
    (Sys.newVoice c f m out).stop t1
      = (some "TypeError: Cannot read properties of undefined (reading gain)",
         Sys.newVoice c f m out) := rfl

/-- Claim C10: `start()` builds the ring-mod gain stage with intrinsic gain 0
and connects the modulator oscillator to that stage's gain parameter; the
only signal inputs of the stage are the three (scaled) oscillators, so the
stage's output is the summed input multiplied exactly by the modulator's
instantaneous output (full-depth modulation around a zero base gain). -/
theorem ringMod_full_depth (f m t0 : ℚ) (c : List Conn) :
    (((Sys.newVoice c f m NodeRef.output).start t0).voice.ringModGain
       = some { gainValue := 0, gainEvents := [] }) ∧
    (Conn.mk NodeRef.ringModModulator (Dest.gainParam NodeRef.ringModGain)
       ∈ ((Sys.newVoice c f m NodeRef.output).start t0).conns) ∧
    (∀ a : NodeRef, sedge (Voice.startConns NodeRef.output) a NodeRef.ringModGain = true
       ↔ (a = NodeRef.osc ∨ a = NodeRef.osc2scale ∨ a = NodeRef.osc3scale)) ∧
    (∀ x mo : ℚ, gainNodeOutput 0 x mo = x * mo) := by
  refine ⟨rfl, ?_, by decide, ?_⟩
  · simp [Sys.newVoice, Voice.construct, Sys.start, Voice.startConns]
  · intro x mo
    unfold gainNodeOutput
    ring
